import Mathlib

/-! Verification of the attendance-tracker domain logic: the haversine
distance classifier and the append-only attendance ledger, embedded from
the page components of the repository. -/

namespace AttendanceApp

/-- Record type of an attendance event, the source string literals
"check-in" and "check-out". -/
inductive RecType where
  | checkIn
  | checkOut
deriving DecidableEq, BEq, Repr

/-- Presence status stored in a record, the source string literals
"present" and "absent". -/
inductive RecStatus where
  | present
  | absent
deriving DecidableEq, BEq, Repr

/-- A geographic coordinate: latitude and longitude in degrees. -/
structure Coord where
  latitude : ℝ
  longitude : ℝ

/-- The AttendanceRecord interface of the source: user id, epoch-millisecond
timestamp, event type, presence status, captured location and optional photo
data URI. -/
structure AttendanceRecord where
  id : String
  timestamp : Int
  type : RecType
  status : RecStatus
  location : Coord
  photoUrl : Option String

/-- The stored current-user object: id and name. -/
structure User where
  id : String
  name : String

/-- The component state of the Attendance page that the handlers read and
write: current user, last captured location, derived distance and
within-office flag, loading flag, the hasCheckedIn UI flag, the attendance
ledger, and whether the camera is active. -/
structure AttState where
  currentUser : Option User
  currentLocation : Option Coord
  distance : Option Int
  isWithinOffice : Option Bool
  isLoading : Bool
  hasCheckedIn : Bool
  attendanceRecords : List AttendanceRecord
  isCameraActive : Bool

/-- Maximum distance from the office in meters to be considered present. -/
def MAX_DISTANCE : Int := 100

/-- Page-load derivation of the hasCheckedIn flag (Attendance useEffect):
filter the stored records to those of the current user, on today's calendar
day, of type check-in, and test whether any exist.  The calendar-day
bucketing of a timestamp (toDateString in the source) is passed in as
`dayOf`, since it is environment dependent; the code only compares day
values for equality. -/
def hasCheckedInOnLoad (dayOf : Int → Int) (records : List AttendanceRecord)
    (uid : String) (today : Int) : Bool :=
  decide (0 < (records.filter (fun r =>
    r.id == uid && dayOf r.timestamp == today && r.type == RecType.checkIn)).length)

/-- Modelled from the spec: `hasOpenCheckIn(userId, date)` returns true iff
the most recent record for that user on that date is a check-in not yet
followed by a check-out.  With the ledger in append order, the most recent
such record is the last element of the user/day filtered list.  This
definition follows the words of the spec and is compared against the
page-load computation found in the source. -/
def specHasOpenCheckIn (dayOf : Int → Int) (records : List AttendanceRecord)
    (uid : String) (today : Int) : Bool :=
  match (records.filter (fun r => r.id == uid && dayOf r.timestamp == today)).getLast? with
  | some r => r.type == RecType.checkIn
  | none => false

/-- History page record selection: the stored records filtered to those whose
id equals the current user's id. -/
def historyRecordsFor (records : List AttendanceRecord) (uid : String) :
    List AttendanceRecord :=
  records.filter (fun r => r.id == uid)

/-- Comparator used by the History table: sort descending by timestamp
(the source comparator (a, b) => b.timestamp - a.timestamp, which orders a
before b when b.timestamp ≤ a.timestamp; Array.prototype.sort is stable). -/
def newestFirst (a b : AttendanceRecord) : Bool :=
  decide (b.timestamp ≤ a.timestamp)

/-- The rows the History table displays: the user's records sorted newest
first with a stable sort. -/
def historyDisplay (records : List AttendanceRecord) (uid : String) :
    List AttendanceRecord :=
  (historyRecordsFor records uid).mergeSort newestFirst

/-- The office reference location hard-coded in the source. -/
noncomputable def OFFICE_LOCATION : Coord :=
  { latitude := 40.7128, longitude := -74.0060 }

/-- The two-argument arctangent as computed by JS Math.atan2(y, x) over the
reals: the angle of the point (x, y), in (-pi, pi]. -/
noncomputable def atan2 (y x : ℝ) : ℝ :=
  if 0 < x then Real.arctan (y / x)
  else if x < 0 ∧ 0 ≤ y then Real.arctan (y / x) + Real.pi
  else if x < 0 ∧ y < 0 then Real.arctan (y / x) - Real.pi
  else if x = 0 ∧ 0 < y then Real.pi / 2
  else if x = 0 ∧ y < 0 then -(Real.pi / 2)
  else 0

/-- The haversine intermediate value `a` of calculateDistance:
sin²(Δφ/2) + cos(φ1)·cos(φ2)·sin²(Δλ/2), with the latitudes and the
differences converted from degrees to radians exactly as in the source. -/
noncomputable def havA (lat1 lon1 lat2 lon2 : ℝ) : ℝ :=
  Real.sin ((lat2 - lat1) * Real.pi / 180 / 2) *
      Real.sin ((lat2 - lat1) * Real.pi / 180 / 2) +
    Real.cos (lat1 * Real.pi / 180) * Real.cos (lat2 * Real.pi / 180) *
      Real.sin ((lon2 - lon1) * Real.pi / 180 / 2) *
      Real.sin ((lon2 - lon1) * Real.pi / 180 / 2)

/-- The calculateDistance function of the source: haversine great-circle
distance with Earth radius R = 6371e3 meters,
c = 2·atan2(√a, √(1 − a)), distance = R·c, rounded to the nearest whole
meter (Math.round rounds half toward +∞, as Mathlib round does). -/
noncomputable def calculateDistance (lat1 lon1 lat2 lon2 : ℝ) : Int :=
  round ((6371e3 : ℝ) *
    (2 * atan2 (Real.sqrt (havA lat1 lon1 lat2 lon2))
      (Real.sqrt (1 - havA lat1 lon1 lat2 lon2))))

/-- The success callback of getCurrentLocation: store the position, compute
the distance from the office, derive the within-office flag by comparing
with MAX_DISTANCE, and clear the loading flag. -/
noncomputable def getCurrentLocationSuccess (pos : Coord) (s : AttState) : AttState :=
  let dist := calculateDistance pos.latitude pos.longitude
    OFFICE_LOCATION.latitude OFFICE_LOCATION.longitude
  { s with
      currentLocation := some pos
      distance := some dist
      isWithinOffice := some (decide (dist ≤ MAX_DISTANCE))
      isLoading := false }

/-- The error callback of getCurrentLocation: the location, distance and
within-office flag are left unchanged (they stay null when never set); only
the loading flag is cleared. -/
def getCurrentLocationFailure (s : AttState) : AttState :=
  { s with isLoading := false }

/-- The handleAttendance handler.  If the current user or the current
location is missing it returns early, leaving the state unchanged.
Otherwise it builds a new record whose status is present exactly when the
stored isWithinOffice flag is true (a null flag behaves as false, as JS
truthiness does in the source conditional), appends it to the ledger, stops
the camera, and sets the hasCheckedIn flag according to the action type.
The timestamp `now` (Date.now()) and the captured photo are inputs. -/
def handleAttendance (type : RecType) (now : Int) (captured : Option String)
    (s : AttState) : AttState :=
  match s.currentUser, s.currentLocation with
  | some user, some loc =>
    let photoUrl : Option String := if s.isCameraActive then captured else none
    let newRecord : AttendanceRecord :=
      { id := user.id
        timestamp := now
        type := type
        status := if s.isWithinOffice.getD false then RecStatus.present else RecStatus.absent
        location := loc
        photoUrl := photoUrl }
    let updatedRecords := s.attendanceRecords ++ [newRecord]
    { s with
        attendanceRecords := updatedRecords
        isCameraActive := false
        hasCheckedIn := type == RecType.checkIn }
  | _, _ => s

/-! Concrete fixtures used by scenario theorems and witnesses. -/

/-- A logged-in state with an empty ledger and no location yet. -/
def baseState : AttState :=
  { currentUser := some { id := "U1", name := "User One" }
    currentLocation := none
    distance := none
    isWithinOffice := none
    isLoading := false
    hasCheckedIn := false
    attendanceRecords := []
    isCameraActive := false }

/-- A check-in record for user U1 at timestamp 0. -/
def recIn : AttendanceRecord :=
  { id := "U1", timestamp := 0, type := RecType.checkIn,
    status := RecStatus.present, location := { latitude := 0, longitude := 0 },
    photoUrl := none }

/-- A check-out record for user U1 at timestamp 60000, the same calendar day
as recIn under millisecond-per-day bucketing. -/
def recOut : AttendanceRecord :=
  { id := "U1", timestamp := 60000, type := RecType.checkOut,
    status := RecStatus.present, location := { latitude := 0, longitude := 0 },
    photoUrl := none }

/-- A check-in record for a different user U2 at timestamp 1000. -/
def recOther : AttendanceRecord :=
  { id := "U2", timestamp := 1000, type := RecType.checkIn,
    status := RecStatus.present, location := { latitude := 0, longitude := 0 },
    photoUrl := none }

/-- Calendar-day bucketing by epoch milliseconds per day, a concrete
instance of the dayOf parameter. -/
def msPerDay (t : Int) : Int := t / 86400000

/-- C1: the page-load hasCheckedIn computation counts only check-in records
of the user on the day and ignores check-out records, so on the ledger
[check-in U1, check-out U1] (same day) it yields true, while the claimed
hasOpenCheckIn semantics — the most recent record of the user on the day is
a check-in not yet followed by a check-out — yields false.  This exhibits
the divergence of the code from the claim at a concrete input. -/
theorem c1_pageload_flag_ignores_checkout :
    hasCheckedInOnLoad msPerDay [recIn, recOut] "U1" 0 = true ∧
    specHasOpenCheckIn msPerDay [recIn, recOut] "U1" 0 = false := by
  constructor <;> rfl

/-- C2 counterexample: with a logged-in user but no available location, the
attendance handler leaves the ledger unchanged — no record is appended, so
the claim that an attendance action still appends a record is false. -/
theorem c2_counterexample :
    (handleAttendance RecType.checkIn 0 none baseState).attendanceRecords = []
      ∧ baseState.currentLocation = none ∧ baseState.attendanceRecords = [] := by
  refine ⟨rfl, rfl, rfl⟩

/-- C2 amended: when the current location is unavailable (null), the
attendance handler returns early and the whole state — in particular the
ledger — is unchanged; the action is blocked rather than recorded with a
default status. -/
theorem c2_no_location_noop (type : RecType) (now : Int) (captured : Option String)
    (s : AttState) (h : s.currentLocation = none) :
    handleAttendance type now captured s = s := by
  cases hu : s.currentUser <;> simp [handleAttendance, hu, h]

/-- C2 witness: the amended no-op theorem applied at a concrete
location-free state. -/
theorem c2_no_location_noop_witness :
    handleAttendance RecType.checkIn 0 none baseState = baseState :=
  c2_no_location_noop RecType.checkIn 0 none baseState rfl

/-- C5: the handler only ever extends the ledger at the end: the old ledger
is an unchanged prefix of the new one, and the extension is either empty
(guard failed) or a single new record appended at the end; the location
update operations never touch the ledger at all. -/
theorem c5_append_only (type : RecType) (now : Int) (captured : Option String)
    (s : AttState) :
    (∃ tail, (handleAttendance type now captured s).attendanceRecords
        = s.attendanceRecords ++ tail) ∧
    ((handleAttendance type now captured s).attendanceRecords = s.attendanceRecords ∨
      ∃ r, (handleAttendance type now captured s).attendanceRecords
        = s.attendanceRecords ++ [r]) ∧
    (∀ pos, (getCurrentLocationSuccess pos s).attendanceRecords = s.attendanceRecords) ∧
    (getCurrentLocationFailure s).attendanceRecords = s.attendanceRecords := by
  refine ⟨?_, ?_, fun pos => rfl, rfl⟩ <;>
    cases hu : s.currentUser <;> cases hl : s.currentLocation <;>
      simp [handleAttendance, hu, hl]

/-- C8: the ledger-level handler enforces no state-machine ordering: with a
logged-in user and an available location it appends exactly one record for
every action type, regardless of the hasCheckedIn flag and of whatever
records the ledger already holds. -/
theorem c8_no_ordering_enforcement (type : RecType) (now : Int)
    (captured : Option String) (s : AttState) (u : User) (loc : Coord)
    (hu : s.currentUser = some u) (hl : s.currentLocation = some loc) :
    (handleAttendance type now captured s).attendanceRecords.length
      = s.attendanceRecords.length + 1 := by
  simp [handleAttendance, hu, hl]

/-- C8 witness: a second check-in for a user who already has an open
check-in (hasCheckedIn is true and the ledger already holds that check-in)
is still appended. -/
theorem c8_no_ordering_enforcement_witness :
    (handleAttendance RecType.checkIn 1 none
        { baseState with
            currentLocation := some { latitude := 0, longitude := 0 }
            hasCheckedIn := true
            attendanceRecords := [recIn] }).attendanceRecords.length
      = ({ baseState with
            currentLocation := some { latitude := 0, longitude := 0 }
            hasCheckedIn := true
            attendanceRecords := [recIn] } : AttState).attendanceRecords.length + 1 :=
  c8_no_ordering_enforcement RecType.checkIn 1 none _
    { id := "U1", name := "User One" } { latitude := 0, longitude := 0 } rfl rfl

/-- C9: appending a record of a different user changes neither the page-load
hasCheckedIn derivation, nor the spec-level open-check-in derivation, nor
the history selection of a user: the per-user computations are unaffected by
other users' records. -/
theorem c9_noninterference (dayOf : Int → Int) (records : List AttendanceRecord)
    (r : AttendanceRecord) (uid : String) (today : Int) (h : r.id ≠ uid) :
    hasCheckedInOnLoad dayOf (records ++ [r]) uid today
        = hasCheckedInOnLoad dayOf records uid today ∧
    specHasOpenCheckIn dayOf (records ++ [r]) uid today
        = specHasOpenCheckIn dayOf records uid today ∧
    historyRecordsFor (records ++ [r]) uid = historyRecordsFor records uid ∧
    historyDisplay (records ++ [r]) uid = historyDisplay records uid := by
  have hid : (r.id == uid) = false := beq_eq_false_iff_ne.mpr h
  refine ⟨?_, ?_, ?_, ?_⟩ <;>
    simp [hasCheckedInOnLoad, specHasOpenCheckIn, historyRecordsFor, historyDisplay,
      List.filter_append, hid]

/-- C9 witness: the noninterference theorem applied with user U2's record
appended to a ledger of user U1. -/
theorem c9_noninterference_witness :
    hasCheckedInOnLoad msPerDay ([recIn] ++ [recOther]) "U1" 0
        = hasCheckedInOnLoad msPerDay [recIn] "U1" 0 ∧
    specHasOpenCheckIn msPerDay ([recIn] ++ [recOther]) "U1" 0
        = specHasOpenCheckIn msPerDay [recIn] "U1" 0 ∧
    historyRecordsFor ([recIn] ++ [recOther]) "U1" = historyRecordsFor [recIn] "U1" ∧
    historyDisplay ([recIn] ++ [recOther]) "U1" = historyDisplay [recIn] "U1" :=
  c9_noninterference msPerDay [recIn] recOther "U1" 0 (by decide)

/-- C7: the history view shows exactly the user's records: the displayed
list is a permutation of the id-filtered selection, that selection is a
subsequence of the ledger containing precisely the records whose id equals
the user's, and the display is sorted descending by timestamp; on the
concrete check-in-then-check-out ledger the check-out is displayed first. -/
theorem c7_history_filter_sorted (records : List AttendanceRecord) (uid : String) :
    (historyDisplay records uid).Perm (historyRecordsFor records uid) ∧
    (historyRecordsFor records uid).Sublist records ∧
    (∀ r, r ∈ historyRecordsFor records uid ↔ (r ∈ records ∧ r.id = uid)) ∧
    List.Sorted (fun a b => b.timestamp ≤ a.timestamp) (historyDisplay records uid) ∧
    historyDisplay [recIn, recOut] "U1" = [recOut, recIn] := by
  refine ⟨List.mergeSort_perm _ newestFirst, List.filter_sublist records, ?_, ?_, ?_⟩
  · intro r
    simp [historyRecordsFor, List.mem_filter]
  · have hp := @List.sorted_mergeSort AttendanceRecord newestFirst
      (fun a b c hab hbc => by
        simp only [newestFirst, decide_eq_true_eq] at hab hbc ⊢
        exact le_trans hbc hab)
      (fun a b => by
        simp only [newestFirst, Bool.or_eq_true, decide_eq_true_eq]
        exact le_total b.timestamp a.timestamp)
      (historyRecordsFor records uid)
    exact hp.imp (fun h => by simpa [newestFirst] using h)
  · simp [historyDisplay, historyRecordsFor, List.mergeSort, newestFirst, recIn, recOut]

/-! Analytic facts about the distance classifier. -/

/-- The haversine intermediate value is symmetric in the two coordinates. -/
lemma havA_symm (lat1 lon1 lat2 lon2 : ℝ) :
    havA lat2 lon2 lat1 lon1 = havA lat1 lon1 lat2 lon2 := by
  unfold havA
  have h1 : (lat1 - lat2) * Real.pi / 180 / 2
      = -((lat2 - lat1) * Real.pi / 180 / 2) := by ring
  have h2 : (lon1 - lon2) * Real.pi / 180 / 2
      = -((lon2 - lon1) * Real.pi / 180 / 2) := by ring
  rw [h1, h2, Real.sin_neg, Real.sin_neg]
  ring

/-- atan2 evaluated on (sin y, cos y) recovers y when y is in the open
right half-circle. -/
lemma atan2_sin_cos (y : ℝ) (h1 : -(Real.pi / 2) < y) (h2 : y < Real.pi / 2) :
    atan2 (Real.sin y) (Real.cos y) = y := by
  have hc : 0 < Real.cos y := Real.cos_pos_of_mem_Ioo ⟨h1, h2⟩
  unfold atan2
  rw [if_pos hc, ← Real.tan_eq_sin_div_cos, Real.arctan_tan h1 h2]

/-- On a meridian (equal longitudes) the distance computation evaluates to
the rounded arc R·2y, where y is the absolute half-angle of the latitude
difference in radians. -/
lemma calculateDistance_lat_only (lat1 lat2 lon y : ℝ)
    (hz : (lat2 - lat1) * Real.pi / 180 / 2 = y ∨
      (lat2 - lat1) * Real.pi / 180 / 2 = -y)
    (h0 : 0 ≤ y) (h2 : y < Real.pi / 2) :
    calculateDistance lat1 lon lat2 lon = round ((6371e3 : ℝ) * (2 * y)) := by
  have hy_pi : y ≤ Real.pi := by linarith [Real.pi_pos]
  have hA : havA lat1 lon lat2 lon = Real.sin y * Real.sin y := by
    unfold havA
    have hll : (lon - lon) * Real.pi / 180 / 2 = 0 := by ring
    rw [hll, Real.sin_zero]
    rcases hz with h | h <;> rw [h] <;> simp [Real.sin_neg]
  have hs : Real.sqrt (Real.sin y * Real.sin y) = Real.sin y :=
    Real.sqrt_mul_self (Real.sin_nonneg_of_nonneg_of_le_pi h0 hy_pi)
  have hcos : 1 - Real.sin y * Real.sin y = Real.cos y * Real.cos y := by
    nlinarith [Real.sin_sq_add_cos_sq y]
  have hc0 : 0 ≤ Real.cos y :=
    le_of_lt (Real.cos_pos_of_mem_Ioo ⟨by linarith, h2⟩)
  have hsc : Real.sqrt (1 - Real.sin y * Real.sin y) = Real.cos y := by
    rw [hcos]; exact Real.sqrt_mul_self hc0
  unfold calculateDistance
  rw [hA, hs, hsc, atan2_sin_cos y (by linarith) h2]

/-- The distance from a point to itself is zero meters. -/
lemma calculateDistance_self (lat lon : ℝ) :
    calculateDistance lat lon lat lon = 0 := by
  have h := calculateDistance_lat_only lat lat lon 0 (Or.inl (by ring)) le_rfl
    (by linarith [Real.pi_pos])
  rw [h]
  simp

/-- C4: the distance classifier is symmetric in its two coordinate pairs,
and the distance from any coordinate to itself is zero. -/
theorem c4_distance_symm_and_self (lat1 lon1 lat2 lon2 : ℝ) :
    calculateDistance lat1 lon1 lat2 lon2 = calculateDistance lat2 lon2 lat1 lon1 ∧
    calculateDistance lat1 lon1 lat1 lon1 = 0 := by
  constructor
  · unfold calculateDistance
    rw [havA_symm]
  · exact calculateDistance_self lat1 lon1

/-- The coordinate 0.01 degrees of latitude north of the office. -/
noncomputable def northPos : Coord :=
  { latitude := 40.7228, longitude := -74.0060 }

/-- The exact value of the distance computation for the point 0.01 degrees
of latitude north of the office: the rounded arc is 1112 meters. -/
lemma calculateDistance_north :
    calculateDistance 40.7228 (-74.0060) 40.7128 (-74.0060) = 1112 := by
  have hz : ((40.7128 : ℝ) - 40.7228) * Real.pi / 180 / 2 = -(Real.pi / 36000) := by
    have hq : (40.7128 : ℝ) - 40.7228 = -(1 / 100) := by norm_num
    rw [hq]; ring
  have h := calculateDistance_lat_only 40.7228 40.7128 (-74.0060) (Real.pi / 36000)
    (Or.inr hz) (by positivity) (by linarith [Real.pi_pos])
  rw [h]
  have harg : (6371e3 : ℝ) * (2 * (Real.pi / 36000)) = 6371000 * Real.pi / 18000 := by
    ring_nf
  rw [harg, round_eq, Int.floor_eq_iff]
  constructor
  · push_cast
    linarith [Real.pi_gt_d6]
  · push_cast
    linarith [Real.pi_lt_d6]

/-- C6 counterexample: at the coordinate pair of the about-1.1-km-north
scenario the computed distance is exactly 1112 meters, not 1113 meters as
the claim states. -/
theorem c6_counterexample :
    calculateDistance 40.7228 (-74.0060) 40.7128 (-74.0060) = 1112 ∧
    (1112 : Int) ≠ 1113 := by
  refine ⟨calculateDistance_north, by decide⟩

/-- C6 amended: the distance computation is the haversine formula with
Earth radius 6371000 meters rounded to the nearest meter; at the office
coordinate the distance is 0 and a check-in there is recorded present, and
at the point 0.01 degrees of latitude further north the distance is 1112
meters (about 1.1 km) and a check-in there is recorded absent. -/
theorem c6_scenarios :
    calculateDistance 40.7128 (-74.0060) 40.7128 (-74.0060) = 0 ∧
    calculateDistance 40.7228 (-74.0060) 40.7128 (-74.0060) = 1112 ∧
    (handleAttendance RecType.checkIn 1 none
        (getCurrentLocationSuccess OFFICE_LOCATION baseState)).attendanceRecords
      = [{ id := "U1", timestamp := 1, type := RecType.checkIn,
           status := RecStatus.present, location := OFFICE_LOCATION,
           photoUrl := none }] ∧
    (handleAttendance RecType.checkIn 1 none
        (getCurrentLocationSuccess northPos baseState)).attendanceRecords
      = [{ id := "U1", timestamp := 1, type := RecType.checkIn,
           status := RecStatus.absent, location := northPos,
           photoUrl := none }] := by
  have h0 : calculateDistance OFFICE_LOCATION.latitude OFFICE_LOCATION.longitude
      OFFICE_LOCATION.latitude OFFICE_LOCATION.longitude = 0 :=
    calculateDistance_self _ _
  have hN : calculateDistance northPos.latitude northPos.longitude
      OFFICE_LOCATION.latitude OFFICE_LOCATION.longitude = 1112 := by
    show calculateDistance 40.7228 (-74.0060) 40.7128 (-74.0060) = 1112
    exact calculateDistance_north
  refine ⟨calculateDistance_self _ _, calculateDistance_north, ?_, ?_⟩
  · simp [handleAttendance, getCurrentLocationSuccess, baseState, h0, MAX_DISTANCE]
  · simp [handleAttendance, getCurrentLocationSuccess, baseState, hN, MAX_DISTANCE]

/-- Bounds of the haversine combination sin²d + cos a cos b · t when d is
the half difference of a and b and t lies in the unit interval: it is a
convex combination of sin²((b−a)/2) and cos²((b+a)/2). -/
lemma hav_aux (a b d t : ℝ) (hd : d = (b - a) / 2) (ht0 : 0 ≤ t) (ht1 : t ≤ 1) :
    0 ≤ Real.sin d * Real.sin d + Real.cos a * Real.cos b * t ∧
    Real.sin d * Real.sin d + Real.cos a * Real.cos b * t ≤ 1 := by
  subst hd
  have h1 := Real.sin_sq_eq_half_sub ((b - a) / 2)
  rw [show 2 * ((b - a) / 2) = b - a by ring] at h1
  have h2 := Real.cos_sq ((b + a) / 2)
  rw [show 2 * ((b + a) / 2) = b + a by ring] at h2
  have hd1 := Real.cos_sub b a
  have hd2 := Real.cos_add b a
  have hkey : Real.sin ((b - a) / 2) * Real.sin ((b - a) / 2)
        + Real.cos a * Real.cos b * t
      = (1 - t) * (Real.sin ((b - a) / 2) * Real.sin ((b - a) / 2))
        + t * (Real.cos ((b + a) / 2) * Real.cos ((b + a) / 2)) := by
    have hp1 : Real.sin ((b - a) / 2) * Real.sin ((b - a) / 2)
        = Real.sin ((b - a) / 2) ^ 2 := by ring
    have hp2 : Real.cos ((b + a) / 2) * Real.cos ((b + a) / 2)
        = Real.cos ((b + a) / 2) ^ 2 := by ring
    rw [hp1, hp2, h1, h2, hd1, hd2]
    ring
  constructor
  · rw [hkey]
    have g1 : 0 ≤ (1 - t) * (Real.sin ((b - a) / 2) * Real.sin ((b - a) / 2)) :=
      mul_nonneg (by linarith) (mul_self_nonneg _)
    have g2 : 0 ≤ t * (Real.cos ((b + a) / 2) * Real.cos ((b + a) / 2)) :=
      mul_nonneg ht0 (mul_self_nonneg _)
    linarith
  · rw [hkey]
    have g3 : Real.sin ((b - a) / 2) * Real.sin ((b - a) / 2) ≤ 1 := by
      nlinarith [Real.sin_le_one ((b - a) / 2), Real.neg_one_le_sin ((b - a) / 2)]
    have g4 : Real.cos ((b + a) / 2) * Real.cos ((b + a) / 2) ≤ 1 := by
      nlinarith [Real.cos_le_one ((b + a) / 2), Real.neg_one_le_cos ((b + a) / 2)]
    nlinarith [mul_self_nonneg (Real.sin ((b - a) / 2)),
      mul_self_nonneg (Real.cos ((b + a) / 2))]

/-- The haversine intermediate value always lies in the unit interval, for
arbitrary real coordinates. -/
lemma havA_nonneg_le_one (lat1 lon1 lat2 lon2 : ℝ) :
    0 ≤ havA lat1 lon1 lat2 lon2 ∧ havA lat1 lon1 lat2 lon2 ≤ 1 := by
  have ht0 : 0 ≤ Real.sin ((lon2 - lon1) * Real.pi / 180 / 2)
      * Real.sin ((lon2 - lon1) * Real.pi / 180 / 2) := mul_self_nonneg _
  have ht1 : Real.sin ((lon2 - lon1) * Real.pi / 180 / 2)
      * Real.sin ((lon2 - lon1) * Real.pi / 180 / 2) ≤ 1 := by
    nlinarith [Real.sin_le_one ((lon2 - lon1) * Real.pi / 180 / 2),
      Real.neg_one_le_sin ((lon2 - lon1) * Real.pi / 180 / 2)]
  have h := hav_aux (lat1 * Real.pi / 180) (lat2 * Real.pi / 180)
    ((lat2 - lat1) * Real.pi / 180 / 2)
    (Real.sin ((lon2 - lon1) * Real.pi / 180 / 2)
      * Real.sin ((lon2 - lon1) * Real.pi / 180 / 2))
    (by ring) ht0 ht1
  unfold havA
  constructor
  · have := h.1
    nlinarith [this]
  · have := h.2
    nlinarith [this]

/-- atan2 on nonnegative arguments lies in the closed interval from 0 to
half pi. -/
lemma atan2_nonneg_le (y x : ℝ) (hy : 0 ≤ y) (hx : 0 ≤ x) :
    0 ≤ atan2 y x ∧ atan2 y x ≤ Real.pi / 2 := by
  unfold atan2
  split_ifs with h1 h2 h3 h4 h5
  · constructor
    · have hm := Real.arctan_strictMono.monotone (div_nonneg hy hx)
      rwa [Real.arctan_zero] at hm
    · exact (Real.arctan_lt_pi_div_two _).le
  · exact absurd h2.1 (not_lt.mpr hx)
  · exact absurd h3.1 (not_lt.mpr hx)
  · exact ⟨by linarith [Real.pi_pos], le_rfl⟩
  · exact absurd h5.2 (not_lt.mpr hy)
  · exact ⟨le_rfl, by linarith [Real.pi_pos]⟩

/-- Rounding to the nearest integer is monotone. -/
lemma round_mono_le {x y : ℝ} (h : x ≤ y) : round x ≤ round y := by
  rw [round_eq, round_eq]
  exact Int.floor_mono (by linarith)

/-- C10: the distance computation is total and safe for all real inputs:
the haversine intermediate value lies in the unit interval, the angular
term lies between 0 and pi, and the rounded distance is a nonnegative
integer bounded by the rounded half circumference. -/
theorem c10_distance_total_bounds (lat1 lon1 lat2 lon2 : ℝ) :
    0 ≤ havA lat1 lon1 lat2 lon2 ∧ havA lat1 lon1 lat2 lon2 ≤ 1 ∧
    0 ≤ 2 * atan2 (Real.sqrt (havA lat1 lon1 lat2 lon2))
        (Real.sqrt (1 - havA lat1 lon1 lat2 lon2)) ∧
    2 * atan2 (Real.sqrt (havA lat1 lon1 lat2 lon2))
        (Real.sqrt (1 - havA lat1 lon1 lat2 lon2)) ≤ Real.pi ∧
    0 ≤ calculateDistance lat1 lon1 lat2 lon2 ∧
    calculateDistance lat1 lon1 lat2 lon2 ≤ round (Real.pi * 6371000) := by
  obtain ⟨hA0, hA1⟩ := havA_nonneg_le_one lat1 lon1 lat2 lon2
  obtain ⟨hc0, hc2⟩ := atan2_nonneg_le (Real.sqrt (havA lat1 lon1 lat2 lon2))
    (Real.sqrt (1 - havA lat1 lon1 lat2 lon2))
    (Real.sqrt_nonneg _) (Real.sqrt_nonneg _)
  refine ⟨hA0, hA1, by linarith, by linarith, ?_, ?_⟩
  · have hz := round_mono_le (show (0 : ℝ) ≤ (6371e3 : ℝ)
        * (2 * atan2 (Real.sqrt (havA lat1 lon1 lat2 lon2))
          (Real.sqrt (1 - havA lat1 lon1 lat2 lon2))) by nlinarith)
    rw [round_zero] at hz
    exact hz
  · have hub : (6371e3 : ℝ)
        * (2 * atan2 (Real.sqrt (havA lat1 lon1 lat2 lon2))
          (Real.sqrt (1 - havA lat1 lon1 lat2 lon2))) ≤ Real.pi * 6371000 := by
      nlinarith
    exact round_mono_le hub

/-- C3: an attendance action taken after a successful location capture
appends exactly one record whose status is present iff the distance
computed from the captured location to the office at capture time is within
the 100 meter threshold, and absent otherwise; and no handler invocation
ever rewrites existing ledger entries — every invocation only appends. -/
theorem c3_status_iff_threshold (s : AttState) (u : User) (pos : Coord)
    (type : RecType) (now : Int) (captured : Option String)
    (hu : s.currentUser = some u) :
    ((handleAttendance type now captured
        (getCurrentLocationSuccess pos s)).attendanceRecords
      = s.attendanceRecords ++
        [{ id := u.id, timestamp := now, type := type,
           status :=
             if calculateDistance pos.latitude pos.longitude
                 OFFICE_LOCATION.latitude OFFICE_LOCATION.longitude ≤ MAX_DISTANCE
             then RecStatus.present else RecStatus.absent,
           location := pos,
           photoUrl := if s.isCameraActive then captured else none }]) ∧
    (∀ s2 type2 now2 captured2, ∃ tail,
      (handleAttendance type2 now2 captured2 s2).attendanceRecords
        = s2.attendanceRecords ++ tail) := by
  constructor
  · by_cases h : calculateDistance pos.latitude pos.longitude
        OFFICE_LOCATION.latitude OFFICE_LOCATION.longitude ≤ MAX_DISTANCE <;>
      simp [handleAttendance, getCurrentLocationSuccess, hu, h]
  · intro s2 type2 now2 captured2
    cases hu2 : s2.currentUser with
    | none => exact ⟨[], by simp [handleAttendance, hu2]⟩
    | some u2 =>
      cases hl2 : s2.currentLocation with
      | none => exact ⟨[], by simp [handleAttendance, hu2, hl2]⟩
      | some loc2 =>
        let r : AttendanceRecord :=
          { id := u2.id, timestamp := now2, type := type2,
            status := if s2.isWithinOffice.getD false then RecStatus.present
              else RecStatus.absent,
            location := loc2,
            photoUrl := if s2.isCameraActive then captured2 else none }
        exact ⟨[r], by simp [handleAttendance, hu2, hl2]⟩

/-- C3 witness: the status theorem applied at the office coordinate from
the logged-in base state. -/
theorem c3_status_iff_threshold_witness :
    (handleAttendance RecType.checkIn 1 none
        (getCurrentLocationSuccess OFFICE_LOCATION baseState)).attendanceRecords
      = baseState.attendanceRecords ++
        [{ id := "U1", timestamp := 1, type := RecType.checkIn,
           status :=
             if calculateDistance OFFICE_LOCATION.latitude OFFICE_LOCATION.longitude
                 OFFICE_LOCATION.latitude OFFICE_LOCATION.longitude ≤ MAX_DISTANCE
             then RecStatus.present else RecStatus.absent,
           location := OFFICE_LOCATION,
           photoUrl := if baseState.isCameraActive then none else none }] :=
  (c3_status_iff_threshold baseState { id := "U1", name := "User One" }
    OFFICE_LOCATION RecType.checkIn 1 none rfl).1

end AttendanceApp
